import Mathlib

/-!
Verification of the striptls audit proxy (striptls.py).

The program is shallowly embedded: byte strings are `List Char` (the traffic
is ASCII), Python string operations are re-implemented structurally below,
stateful objects (`TcpSockBuff`, `ProtocolDetect`, `RewriteDispatcher`,
sessions) become records with explicit state passing, and exceptions become
`Except PyErr`.  Socket reads are supplied by the environment as explicit
arguments; socket writes are recorded in per-leg logs.
-/

set_option linter.unusedVariables false

/-- Byte strings of the proxy, modelled as lists of (ASCII) characters. -/
abbrev Str := List Char

/-- Convert a Lean string literal to the `Str` representation. -/
def chars (s : String) : Str := s.data

/-- Python `str.lower()` (ASCII inputs). -/
def lowerS (s : Str) : Str := s.map Char.toLower

/-- `isPrefixL needle hay`: does `hay` start with `needle`? (Python `startswith`.) -/
def isPrefixL : Str → Str → Bool
  | [], _ => true
  | _ :: _, [] => false
  | a :: as, b :: bs => a = b && isPrefixL as bs

/-- First index at which `needle` occurs in the haystack, if any
(Python `str.index` / `str.find`). -/
def findSub (needle : Str) : Str → Option Nat
  | [] => if isPrefixL needle [] then some 0 else none
  | c :: cs =>
    if isPrefixL needle (c :: cs) then some 0
    else (findSub needle cs).map (· + 1)

/-- Python `needle in hay` substring test. -/
def pyIn (needle hay : Str) : Bool := (findSub needle hay).isSome

/-- Characters stripped by Python `str.strip()` with no argument. -/
def pyWs (c : Char) : Bool :=
  c = ' ' || c = '\t' || c = '\n' || c = '\r' || c = '\x0b' || c = '\x0c'

/-- Python `str.strip()`: drop whitespace from both ends. -/
def stripS (s : Str) : Str :=
  ((s.dropWhile pyWs).reverse.dropWhile pyWs).reverse

/-- Fuel-driven worker for `splitS`; the fuel is the haystack length, which
bounds the number of steps. -/
def splitFuel (sep : Str) : Nat → Str → List Str
  | _, [] => [[]]
  | 0, s => [s]
  | fuel + 1, c :: cs =>
    if isPrefixL sep (c :: cs) then
      [] :: splitFuel sep fuel (List.drop (sep.length - 1) cs)
    else
      match splitFuel sep fuel cs with
      | [] => [[c]]
      | h :: t => (c :: h) :: t

/-- Python `s.split(sep)` for a non-empty separator: split at every
non-overlapping occurrence, left to right. -/
def splitS (sep s : Str) : List Str := splitFuel sep s.length s

/-- Python `sep.join(parts)`. -/
def joinS (sep : Str) (parts : List Str) : Str := List.intercalate sep parts

/-- Fuel-driven worker for `replaceS`. -/
def replFuel (old new : Str) : Nat → Str → Str
  | _, [] => []
  | 0, s => s
  | fuel + 1, c :: cs =>
    if isPrefixL old (c :: cs) && !old.isEmpty then
      new ++ replFuel old new fuel (List.drop (old.length - 1) cs)
    else
      c :: replFuel old new fuel cs

/-- Python `s.replace(old, new)` for non-empty `old`: replace every
non-overlapping occurrence, left to right. -/
def replaceS (old new s : Str) : Str := replFuel old new s.length s

/-- The exceptions of the source that the embedded code can raise. -/
inductive PyErr
  /-- Python `IndexError` (list subscript out of range). -/
  | indexError
  /-- Python `ValueError` (e.g. `str.index` finding nothing). -/
  | valueError
  /-- The source's `ProtocolViolationException`. -/
  | protocolViolation
deriving DecidableEq

example : lowerS (chars "EHLO X") = chars "ehlo x" := by decide
example : pyIn (chars "250") (chars "abc 250 x") = true := by decide
example : pyIn (chars "250") (chars "abc 25 x") = false := by decide
example : stripS (chars " STLS\r\n") = chars "STLS" := by decide
example : splitS (chars "\r\n") (chars "a\r\nb\r\n") = [chars "a", chars "b", chars ""] := by decide
example : joinS (chars "\r\n") [chars "a", chars "b"] = chars "a\r\nb" := by decide
example : replaceS (chars "250-") (chars "250 ") (chars "250-HELP") = chars "250 HELP" := by decide
example : isPrefixL (chars "250 ") (chars "250 HELP") = true := by decide

/-!
## TcpSockBuff (striptls.py lines 22-79)

The wrapped socket with lookback buffers.  The actual socket objects are
outside the embedding; `recv` takes the bytes delivered by the peer as an
argument.  `socket_ssl` records whether `ssl_wrap_socket` has run.
-/

/-- The source's `TcpSockBuff`: lookback buffers plus the TLS flag. -/
structure TcpSockBuff where
  socket_ssl : Bool
  sndbuf : Str
  recvbuf : Str
deriving DecidableEq

/-- `TcpSockBuff.recv` (lines 42-47): read through the TLS layer if wrapped,
through the plain socket otherwise; either way the bytes read (supplied here
by the environment) overwrite `recvbuf`. -/
def TcpSockBuff.recv (st : TcpSockBuff) (incoming : Str) : TcpSockBuff :=
  if st.socket_ssl then { st with recvbuf := incoming }
  else { st with recvbuf := incoming }

/-- `TcpSockBuff.send` (lines 49-54): write through the current transport,
then `self.sndbuf = data`. -/
def TcpSockBuff.send (st : TcpSockBuff) (data : Str) : TcpSockBuff :=
  { st with sndbuf := data }

/-- `TcpSockBuff.sendall` (lines 56-61): if TLS is active it delegates to
`send` (which already stores `data`), otherwise it writes on the plain
socket; then `self.sndbuf = data` in both cases. -/
def TcpSockBuff.sendall (st : TcpSockBuff) (data : Str) : TcpSockBuff :=
  let st1 := if st.socket_ssl then st.send data else st
  { st1 with sndbuf := data }

/-!
## ProtocolDetect (striptls.py lines 81-136)
-/

/-- `ProtocolDetect.PORTMAP` (lines 91-99).  In the source each `PROTO_*`
constant equals the default port, so protocol ids are those numbers. -/
def PORTMAP : List (Nat × Nat) :=
  [(25, 25), (5222, 5222), (110, 110), (143, 143),
   (21, 21), (119, 119), (6667, 6667), (675, 675)]

/-- Python `dict`/association-list lookup (first binding wins; the embedded
code only ever appends fresh keys). -/
def alookup {α β : Type} [DecidableEq α] : List (α × β) → α → Option β
  | [], _ => none
  | (k, b) :: rest, a => if k = a then some b else alookup rest a

/-- `ProtocolDetect.KEYWORDS` (lines 101-105). -/
def KEYWORDS : List (List Str × Nat) :=
  [([chars "ehlo", chars "helo", chars "starttls", chars "rcpt to:", chars "mail from:"], 25),
   ([chars "xmpp"], 5222),
   ([chars ". capability"], 143),
   ([chars "auth tls"], 21)]

/-- The mutable state of a `ProtocolDetect` object. -/
structure ProtocolDetect where
  protocol_id : Option Nat
  history : List Str
deriving DecidableEq

/-- `ProtocolDetect.__init__` (lines 107-113): when a target is given, the
protocol id is seeded from the port map (`None` when the port is unknown). -/
def ProtocolDetect.init (target : Option Nat) : ProtocolDetect :=
  match target with
  | none => { protocol_id := none, history := [] }
  | some port => { protocol_id := alookup PORTMAP port, history := [] }

/-- First keyword set matched by `data`, scanning `KEYWORDS` in order
(lines 132-136). -/
def findKW (data : Str) : List (List Str × Nat) → Option Nat
  | [] => none
  | (kws, proto) :: rest =>
    if kws.any (fun k => pyIn k (lowerS data)) then some proto
    else findKW data rest

/-- `ProtocolDetect.detect` (lines 128-136): short-circuit when a protocol is
already fixed; otherwise record the chunk and scan the keyword table. -/
def ProtocolDetect.detect (st : ProtocolDetect) (data : Str) : ProtocolDetect :=
  match st.protocol_id with
  | some _ => st
  | none =>
    let st1 := { st with history := st.history ++ [data] }
    match findKW data KEYWORDS with
    | some proto => { st1 with protocol_id := some proto }
    | none => st1

/-- Repeated `detect` calls over a sequence of chunks. -/
def ProtocolDetect.detectAll (st : ProtocolDetect) : List Str → ProtocolDetect
  | [] => st
  | d :: ds => (st.detect d).detectAll ds

/-!
## Session-side effects of the attack vectors

A vector may inject bytes toward the client (`session.inbound.sendall`),
send bytes upstream (`session.outbound.sendall`), wrap either leg in TLS,
or set the dispatcher result (`rewrite.set_result(session, True)`).
`SessionState` records those effects: the two logs hold the sequence of
`sendall` payloads on each leg.
-/

/-- Effect trace of one proxy session, threaded through the manglers. -/
structure SessionState where
  inbound_tls : Bool
  outbound_tls : Bool
  inbound_sent : List Str
  outbound_sent : List Str
  vuln : Bool
deriving DecidableEq

/-!
## Vectors.SMTP.StripFromCapabilities (striptls.py lines 280-298)
-/

/-- `Vectors.SMTP.StripFromCapabilities.mangle_server_data` (lines 284-291).
`sndbuf` is `session.outbound.sndbuf`, the last bytes forwarded upstream.
`features[-1]` on the empty feature list raises `IndexError`. -/
def Vectors.SMTP.StripFromCapabilities.mangle_server_data
    (sndbuf data : Str) : Except PyErr Str :=
  if (pyIn (chars "ehlo") (lowerS sndbuf) || pyIn (chars "helo") (lowerS sndbuf))
      && pyIn (chars "250") data then
    let features := (splitS (chars "\r\n") (stripS data)).filter
      (fun f => ! pyIn (chars "STARTTLS") f)
    match features.getLast? with
    | none => .error .indexError
    | some last =>
      if isPrefixL (chars "250 ") last then
        .ok (joinS (chars "\r\n") features ++ chars "\r\n")
      else
        .ok (joinS (chars "\r\n")
              (features.dropLast ++ [replaceS (chars "250-") (chars "250 ") last])
             ++ chars "\r\n")
  else .ok data

/-- Stated from the words of claim C2 (and spec section 4.3), for comparison
with the source function: remove every line containing `STARTTLS`, ensure
the last remaining line uses the `250 ` terminator form, CRLF-join with a
trailing CRLF. -/
def smtpStripCapsClaimed (data : Str) : Str :=
  let kept := (splitS (chars "\r\n") (stripS data)).filter
    (fun f => ! pyIn (chars "STARTTLS") f)
  match kept.getLast? with
  | none => joinS (chars "\r\n") kept ++ chars "\r\n"
  | some last =>
    if isPrefixL (chars "250 ") last then joinS (chars "\r\n") kept ++ chars "\r\n"
    else
      joinS (chars "\r\n")
        (kept.dropLast ++ [replaceS (chars "250-") (chars "250 ") last])
       ++ chars "\r\n"

/-- `Vectors.SMTP.StripFromCapabilities.mangle_client_data` (lines 292-298). -/
def Vectors.SMTP.StripFromCapabilities.mangle_client_data
    (st : SessionState) (data : Str) : Except PyErr (SessionState × Str) :=
  if pyIn (chars "STARTTLS") data then .error .protocolViolation
  else if pyIn (chars "mail from") (lowerS data) then .ok ({ st with vuln := true }, data)
  else .ok (st, data)

/-!
## Vectors.POP3.StripWithError (striptls.py lines 467-481)
-/

/-- `Vectors.POP3.StripWithError.mangle_client_data` (lines 473-481): on a
chunk equal to `stls` after strip+lower, inject `-ERR unknown command\r\n`
toward the client and suppress the chunk; on a sentinel (`list`, `user `,
`pass `) set the result and forward unchanged. -/
def Vectors.POP3.StripWithError.mangle_client_data
    (st : SessionState) (data : Str) : SessionState × Option Str :=
  if lowerS (stripS data) = chars "stls" then
    ({ st with inbound_sent := st.inbound_sent ++ [chars "-ERR unknown command\r\n"] }, none)
  else if pyIn (chars "list") (lowerS data) || pyIn (chars "user ") (lowerS data)
      || pyIn (chars "pass ") (lowerS data) then
    ({ st with vuln := true }, some data)
  else (st, some data)

/-!
## Vectors.XMPP.StripInboundTLS (striptls.py lines 764-797)
-/

/-- `Vectors.XMPP.StripInboundTLS.mangle_server_data` (lines 768-786).
`resp` is the upstream reply read by `session.outbound.recv()` in the
`required` branch.  `data.index("</starttls>", start)` raises `ValueError`
when no closing tag follows `<starttls`. -/
def Vectors.XMPP.StripInboundTLS.mangle_server_data
    (st : SessionState) (data resp : Str) : Except PyErr (SessionState × Str) :=
  match findSub (chars "<starttls") data with
  | none => .ok (st, data)
  | some start =>
    match findSub (chars "</starttls>") (List.drop start data) with
    | none => .error .valueError
    | some rel =>
      let endPos := start + rel + (chars "</starttls>").length
      let starttls_args := List.drop start (List.take endPos data)
      let data2 := List.take start data ++ List.drop endPos data
      if pyIn (chars "required") starttls_args then
        let st1 := { st with outbound_sent := st.outbound_sent
          ++ [chars "<starttls xmlns=\x27urn:ietf:params:xml:ns:xmpp-tls\x27/>"] }
        if !isPrefixL (chars "<proceed ") resp then .error .protocolViolation
        else .ok ({ st1 with outbound_tls := true }, data2)
      else .ok (st, data2)

/-!
## Vectors.IRC.StripFromCapabilities (striptls.py lines 916-949)
-/

/-- One loop iteration of lines 924-932: rewrite a single line of the chunk.
The `ack`-vs-`ls` test reads the whole chunk (`data`), not the line. -/
def Vectors.IRC.StripFromCapabilities.capRewriteLine (wholeData line : Str) : Str :=
  if pyIn (chars " cap ") (lowerS line) && pyIn (chars " tls") (lowerS line) then
    if pyIn (chars " ack ") (lowerS wholeData) then
      replaceS (chars "ack") (chars "nak") (replaceS (chars "ACK") (chars "NAK") line)
    else
      joinS (chars " ")
        ((splitS (chars " ") line).filter (fun f => ! pyIn (chars "tls") (lowerS f)))
  else line

/-- The value assigned to `data` by lines 923-933: split on `\n`, rewrite
each line, rejoin. -/
def Vectors.IRC.StripFromCapabilities.capRewrite (data : Str) : Str :=
  joinS (chars "\n")
    ((splitS (chars "\n") data).map (Vectors.IRC.StripFromCapabilities.capRewriteLine data))

/-- `Vectors.IRC.StripFromCapabilities.mangle_server_data` (lines 920-936).
The function body ends in a bare `return` (line 936) at function level, so
the rewritten `data` computed in the first branch is discarded and `None`
is returned on every path; the caller therefore never forwards anything. -/
def Vectors.IRC.StripFromCapabilities.mangle_server_data
    (st : SessionState) (data : Str) : SessionState × Option Str :=
  if pyIn (chars " cap ") (lowerS data) && pyIn (chars " tls") (lowerS data) then
    let _mangled := Vectors.IRC.StripFromCapabilities.capRewrite data
    (st, none)
  else if pyIn (chars "authenticate ") (lowerS data) || pyIn (chars "privmsg ") (lowerS data)
      || pyIn (chars "protoctl ") (lowerS data) then
    ({ st with vuln := true }, none)
  else (st, none)

/-!
## Vectors.SMTP.UntrustedIntercept and InjectCommand (striptls.py lines 373-444)
-/

/-- `Vectors.SMTP.UntrustedIntercept.mangle_client_data` (lines 382-407):
on client `STARTTLS`, inject `220 Go ahead\r\n`, wrap the inbound leg in
TLS, forward `data` upstream, read the upstream reply (`resp`), require it
to contain `220`, wrap the outbound leg, and suppress the chunk. -/
def Vectors.SMTP.UntrustedIntercept.mangle_client_data
    (st : SessionState) (data resp : Str) : Except PyErr (SessionState × Option Str) :=
  if pyIn (chars "STARTTLS") data then
    let st1 := { st with inbound_sent := st.inbound_sent ++ [chars "220 Go ahead\r\n"] }
    let st2 := { st1 with inbound_tls := true }
    let st3 := { st2 with outbound_sent := st2.outbound_sent ++ [data] }
    if !pyIn (chars "220") resp then .error .protocolViolation
    else .ok ({ st3 with outbound_tls := true }, none)
  else if pyIn (chars "mail from") (lowerS data) then .ok ({ st with vuln := true }, some data)
  else .ok (st, some data)

/-- `Vectors.SMTP.InjectCommand.mangle_client_data` (lines 432-444): append
`INJECTED_INVALID_COMMAND\r\n` to a client `STARTTLS` chunk, run the
UntrustedIntercept logic on the appended chunk (its return value is
discarded; only `ssl.SSLEOFError` is caught, so a `ProtocolViolation`
propagates), then return the appended chunk, which is therefore non-null. -/
def Vectors.SMTP.InjectCommand.mangle_client_data
    (st : SessionState) (data resp : Str) : Except PyErr (SessionState × Option Str) :=
  if pyIn (chars "STARTTLS") data then
    let data2 := data ++ chars "INJECTED_INVALID_COMMAND\r\n"
    match Vectors.SMTP.UntrustedIntercept.mangle_client_data st data2 resp with
    | .ok (st1, _discarded) => .ok (st1, some data2)
    | .error e => .error e
  else if pyIn (chars "mail from") (lowerS data) then .ok ({ st with vuln := true }, some data)
  else .ok (st, some data)

/-- The client→server half of `Session.on_recv` (lines 193-204) for a given
client-data mangler: run the mangler on the received chunk, then forward a
non-null result upstream via `s_out.sendall`. -/
def onRecvClient
    (mangler : SessionState → Str → Str → Except PyErr (SessionState × Option Str))
    (st : SessionState) (data resp : Str) : Except PyErr (SessionState × Option Str) :=
  match mangler st data resp with
  | .error e => .error e
  | .ok (st1, none) => .ok (st1, none)
  | .ok (st1, some d) => .ok ({ st1 with outbound_sent := st1.outbound_sent ++ [d] }, some d)

/-!
## RewriteDispatcher (striptls.py lines 1115-1205)

The per-protocol vector collection `vectors[proto]` is a Python `set` of
class objects, which `get_mangle` materialises with `list(...)` (line
1166).  CPython set iteration order for class objects depends on their
`id()`-based hashes, so it is some arbitrary enumeration fixed for the
run, not the registration order.  The embedding therefore carries, for
each protocol, the list that this materialisation yields; nothing below
assumes anything about its order.  Sessions are identified by `sid`
(Python object identity), with the client IP (`session.inbound.peer[0]`)
and detected protocol id carried alongside.
-/

/-- The session data `get_mangle` reads: identity, client IP, protocol. -/
structure PySession where
  sid : Nat
  client : String
  proto : Option Nat
deriving DecidableEq

/-- One entry of `RewriteDispatcher.results` (line 1175): client IP, session,
assigned vector and tri-state result (`none` = pending). -/
structure ResultRec (V : Type) where
  client : String
  session : Nat
  mangle : V
  result : Option Bool
deriving DecidableEq

/-- The state of a `RewriteDispatcher` (lines 1116-1119), generic in the
vector type `V` (a vector is a Python class object). -/
structure RewriteDispatcher (V : Type) where
  vectors : List (Nat × List V)
  results : List (ResultRec V)
  session_to_mangle : List (Nat × V)
deriving DecidableEq

/-- `RewriteDispatcher.get_mangles` (lines 1185-1186): `vectors.get(proto, [])`;
an undetected protocol (`None`) matches no key. -/
def RewriteDispatcher.get_mangles {V : Type} [DecidableEq V]
    (st : RewriteDispatcher V) (proto : Option Nat) : List V :=
  match proto with
  | none => []
  | some p => (alookup st.vectors p).getD []

/-- Python `list.index` (first occurrence; `none` models the `ValueError`). -/
def pyIndexOf {V : Type} [DecidableEq V] : List V → V → Option Nat
  | [], _ => none
  | a :: as, v => if a = v then some 0 else (pyIndexOf as v).map (· + 1)

/-- `RewriteDispatcher.get_mangle` (lines 1151-1183): return the vector
already bound to the session, if any; otherwise rotate round-robin through
the protocol's vector list relative to the client's latest result record,
append a fresh pending record and bind the session. -/
def RewriteDispatcher.get_mangle {V : Type} [DecidableEq V]
    (st : RewriteDispatcher V) (s : PySession) :
    Except PyErr (Option V) × RewriteDispatcher V :=
  match alookup st.session_to_mangle s.sid with
  | some mangle => (.ok (some mangle), st)
  | none =>
    let client_mangle_history := st.results.filter (fun r => r.client = s.client)
    let all_mangles := st.get_mangles s.proto
    if all_mangles.isEmpty then (.ok none, st)
    else
      let idxE : Except PyErr Nat :=
        match client_mangle_history.getLast? with
        | none => .ok 0
        | some previous_result =>
          match pyIndexOf all_mangles previous_result.mangle with
          | none => .error .valueError
          | some i => .ok ((i + 1) % all_mangles.length)
      match idxE with
      | .error e => (.error e, st)
      | .ok new_index =>
        match all_mangles[new_index]? with
        | none => (.ok none, st)
        | some mangle =>
          (.ok (some mangle),
           { st with
             results := st.results ++ [⟨s.client, s.sid, mangle, none⟩],
             session_to_mangle := st.session_to_mangle ++ [(s.sid, mangle)] })

/-!
## Claim theorems
-/

/-- C9: after every `send`/`sendall` the last-sent buffer equals exactly the
bytes just written, and after every `recv` the last-received buffer equals
exactly the bytes just read; each operation fully overwrites the
corresponding buffer (two successive operations keep only the second), and
`send`/`recv` leave the opposite buffer alone. -/
theorem C9_lookback_buffers (st : TcpSockBuff) (d1 d2 r1 r2 : Str) :
    (st.send d1).sndbuf = d1
  ∧ (st.sendall d1).sndbuf = d1
  ∧ (st.recv r1).recvbuf = r1
  ∧ ((st.send d1).send d2).sndbuf = d2
  ∧ ((st.sendall d1).sendall d2).sndbuf = d2
  ∧ ((st.recv r1).recv r2).recvbuf = r2
  ∧ (st.send d1).recvbuf = st.recvbuf
  ∧ (st.recv r1).sndbuf = st.sndbuf := by
  refine ⟨rfl, rfl, ?_, rfl, rfl, ?_, rfl, ?_⟩ <;>
    simp [TcpSockBuff.recv]

/-- C5: `Vectors.SMTP.StripFromCapabilities.mangle_client_data` raises
`ProtocolViolation` exactly when the client chunk contains `STARTTLS`;
otherwise it returns the chunk unchanged, setting the session result to
vulnerable exactly when the chunk contains `mail from` case-insensitively. -/
theorem C5_client_error_behaviour (st : SessionState) (data : Str) :
    (Vectors.SMTP.StripFromCapabilities.mangle_client_data st data
        = .error .protocolViolation
      ↔ pyIn (chars "STARTTLS") data = true)
  ∧ (pyIn (chars "STARTTLS") data = false →
      Vectors.SMTP.StripFromCapabilities.mangle_client_data st data
        = .ok ((if pyIn (chars "mail from") (lowerS data) then { st with vuln := true }
                else st), data)) := by
  unfold Vectors.SMTP.StripFromCapabilities.mangle_client_data
  by_cases h1 : pyIn (chars "STARTTLS") data <;>
    by_cases h2 : pyIn (chars "mail from") (lowerS data) <;>
      simp [h1, h2]

/-- C5 witness: a `MAIL FROM` chunk is forwarded unchanged and flips the
result to vulnerable. -/
theorem C5_client_error_behaviour_witness :
    Vectors.SMTP.StripFromCapabilities.mangle_client_data
        ⟨false, false, [], [], false⟩ (chars "MAIL FROM:<a@b>\r\n")
      = .ok (⟨false, false, [], [], true⟩, chars "MAIL FROM:<a@b>\r\n") := by
  have h := (C5_client_error_behaviour ⟨false, false, [], [], false⟩
    (chars "MAIL FROM:<a@b>\r\n")).2 (by decide)
  exact h.trans (by rfl)

/-- C7: POP3 StripWithError injects exactly `-ERR unknown command\r\n` and
suppresses the chunk when the chunk strip-lowercases to `stls`; any other
chunk is forwarded unchanged, with the result flipped to vulnerable exactly
when it contains `list`, `user ` or `pass ` case-insensitively. -/
theorem C7_pop3_strip_with_error (st : SessionState) (data : Str) :
    (lowerS (stripS data) = chars "stls" →
      Vectors.POP3.StripWithError.mangle_client_data st data
        = ({ st with inbound_sent := st.inbound_sent
              ++ [chars "-ERR unknown command\r\n"] }, none))
  ∧ (lowerS (stripS data) ≠ chars "stls" →
      Vectors.POP3.StripWithError.mangle_client_data st data
        = ((if pyIn (chars "list") (lowerS data) || pyIn (chars "user ") (lowerS data)
              || pyIn (chars "pass ") (lowerS data)
            then { st with vuln := true } else st), some data)) := by
  unfold Vectors.POP3.StripWithError.mangle_client_data
  constructor
  · intro h
    simp [h]
  · intro h
    by_cases h2 : pyIn (chars "list") (lowerS data) || pyIn (chars "user ") (lowerS data)
        || pyIn (chars "pass ") (lowerS data) <;> simp [h, h2]

/-- C7 witness: `STLS\r\n` draws the injected error and is suppressed;
`USER alice\r\n` is then forwarded unchanged and marks the session
vulnerable. -/
theorem C7_pop3_strip_with_error_witness :
    Vectors.POP3.StripWithError.mangle_client_data ⟨false, false, [], [], false⟩
        (chars "STLS\r\n")
      = (⟨false, false, [chars "-ERR unknown command\r\n"], [], false⟩, none)
  ∧ Vectors.POP3.StripWithError.mangle_client_data ⟨false, false, [], [], false⟩
        (chars "USER alice\r\n")
      = (⟨false, false, [], [], true⟩, some (chars "USER alice\r\n")) := by
  constructor
  · have h := (C7_pop3_strip_with_error ⟨false, false, [], [], false⟩
      (chars "STLS\r\n")).1 (by decide)
    exact h.trans (by decide)
  · have h := (C7_pop3_strip_with_error ⟨false, false, [], [], false⟩
      (chars "USER alice\r\n")).2 (by decide)
    exact h.trans (by decide)

/-- C3 counterexample: the claim says a ` cap `/` tls` server chunk is
forwarded in rewritten form and other chunks are forwarded unchanged, but
`mangle_server_data` ends in a bare `return`, so both kinds of chunk come
back as `None` (suppressed); the rewrite is computed and discarded. -/
theorem C3_counterexample :
    Vectors.IRC.StripFromCapabilities.mangle_server_data ⟨false, false, [], [], false⟩
        (chars ":irc.example CAP * LS :sasl tls\r\n")
      = (⟨false, false, [], [], false⟩, none)
  ∧ Vectors.IRC.StripFromCapabilities.mangle_server_data ⟨false, false, [], [], false⟩
        (chars "hello world\r\n")
      = (⟨false, false, [], [], false⟩, none)
  ∧ Vectors.IRC.StripFromCapabilities.capRewrite
        (chars ":irc.example CAP * LS :sasl tls\r\n")
      = chars ":irc.example CAP * LS :sasl\n" := by
  refine ⟨by decide, by decide, by decide⟩

/-- C3 amended: every server chunk is suppressed by
`Vectors.IRC.StripFromCapabilities.mangle_server_data` — the function
returns `None` on all paths, so the computed `CAP ACK`/`CAP LS` rewrite is
never forwarded. -/
theorem C3_always_suppresses (st : SessionState) (data : Str) :
    (Vectors.IRC.StripFromCapabilities.mangle_server_data st data).2 = none := by
  unfold Vectors.IRC.StripFromCapabilities.mangle_server_data
  split <;> [rfl; split <;> rfl]

/-- C6: a target port found in the port map fixes the protocol at
construction, and once `protocol_id` is set — whether by port or by the
first matching keyword set — no sequence of further `detect` calls ever
changes it. -/
theorem C6_detector_monotonic :
    (∀ port : Nat, (ProtocolDetect.init (some port)).protocol_id = alookup PORTMAP port)
  ∧ (∀ (st : ProtocolDetect) (p : Nat) (ds : List Str),
      st.protocol_id = some p → (st.detectAll ds).protocol_id = some p) := by
  constructor
  · intro port
    rfl
  · intro st p ds
    induction ds generalizing st with
    | nil => intro h; exact h
    | cons d ds ih =>
      intro h
      have hd : st.detect d = st := by
        unfold ProtocolDetect.detect
        rw [h]
      show ((st.detect d).detectAll ds).protocol_id = some p
      rw [hd]
      exact ih st h

/-- C2 counterexample: on a 250 response whose every line contains
`STARTTLS` (previous outbound send `ehlo x`), the source indexes
`features[-1]` on an empty list and raises `IndexError` instead of
returning the data the claim describes (which here would be `\r\n`). -/
theorem C2_counterexample :
    Vectors.SMTP.StripFromCapabilities.mangle_server_data (chars "ehlo x")
        (chars "250-STARTTLS\r\n")
      = .error .indexError
  ∧ smtpStripCapsClaimed (chars "250-STARTTLS\r\n") = chars "\r\n" := by
  exact ⟨by rfl, by decide⟩

/-- C2 amended: when the previous outbound send contained `ehlo`/`helo`
(case-insensitively), the chunk contains `250`, and at least one line
survives the `STARTTLS` filter, the returned data is exactly the claim's
description (`smtpStripCapsClaimed`); when the gate fails the chunk is
returned unchanged. -/
theorem C2_strip_capabilities :
    (∀ sndbuf data : Str,
      ((pyIn (chars "ehlo") (lowerS sndbuf) || pyIn (chars "helo") (lowerS sndbuf))
         && pyIn (chars "250") data) = true →
      (splitS (chars "\r\n") (stripS data)).filter (fun f => ! pyIn (chars "STARTTLS") f)
        ≠ [] →
      Vectors.SMTP.StripFromCapabilities.mangle_server_data sndbuf data
        = .ok (smtpStripCapsClaimed data))
  ∧ (∀ sndbuf data : Str,
      ((pyIn (chars "ehlo") (lowerS sndbuf) || pyIn (chars "helo") (lowerS sndbuf))
         && pyIn (chars "250") data) = false →
      Vectors.SMTP.StripFromCapabilities.mangle_server_data sndbuf data = .ok data) := by
  constructor
  · intro sndbuf data hg hne
    unfold Vectors.SMTP.StripFromCapabilities.mangle_server_data smtpStripCapsClaimed
    simp only [hg, if_true]
    cases hl : ((splitS (chars "\r\n") (stripS data)).filter
        (fun f => ! pyIn (chars "STARTTLS") f)).getLast? with
    | none => exact absurd (List.getLast?_eq_none_iff.mp hl) hne
    | some last =>
      simp only [hl]
      split <;> rfl
  · intro sndbuf data hg
    unfold Vectors.SMTP.StripFromCapabilities.mangle_server_data
    simp [hg]

/-- C2 witness: the spec's end-to-end example — the `250-STARTTLS` line is
removed and the rest of the EHLO response is forwarded intact. -/
theorem C2_strip_capabilities_witness :
    Vectors.SMTP.StripFromCapabilities.mangle_server_data (chars "EHLO x\r\n")
        (chars "250-mail.example\r\n250-PIPELINING\r\n250-STARTTLS\r\n250 HELP\r\n")
      = .ok (chars "250-mail.example\r\n250-PIPELINING\r\n250 HELP\r\n") := by
  have h := C2_strip_capabilities.1 (chars "EHLO x\r\n")
    (chars "250-mail.example\r\n250-PIPELINING\r\n250-STARTTLS\r\n250 HELP\r\n")
    (by decide) (by decide)
  exact h.trans (by rfl)

/-- C8 counterexample: a server chunk containing `<starttls` with no later
`</starttls>` (a self-closing `<starttls/>`) makes `data.index` raise
`ValueError`; nothing is forwarded, against the claim's universal
description. -/
theorem C8_counterexample :
    Vectors.XMPP.StripInboundTLS.mangle_server_data ⟨false, false, [], [], false⟩
        (chars "<starttls/>") (chars "<proceed />")
      = .error .valueError
  ∧ pyIn (chars "<starttls") (chars "<starttls/>") = true := by
  exact ⟨by rfl, by decide⟩

/-- C8 amended: for a server chunk whose first `<starttls` (at index
`start`) is followed by `</starttls>` (at relative index `rel`), the
element is excised from the forwarded data; when the element contains
`required` the vector sends the xmpp-tls `<starttls/>` stanza upstream,
raises `ProtocolViolation` unless the upstream response starts with
`<proceed `, and on success upgrades only the outbound leg, leaving the
inbound leg untouched. -/
theorem C8_strip_inbound_tls (st : SessionState) (data resp : Str) (start rel : Nat)
    (h1 : findSub (chars "<starttls") data = some start)
    (h2 : findSub (chars "</starttls>") (List.drop start data) = some rel) :
    (pyIn (chars "required")
        (List.drop start (List.take (start + rel + (chars "</starttls>").length) data))
        = false →
      Vectors.XMPP.StripInboundTLS.mangle_server_data st data resp
        = .ok (st, List.take start data
            ++ List.drop (start + rel + (chars "</starttls>").length) data))
  ∧ (pyIn (chars "required")
        (List.drop start (List.take (start + rel + (chars "</starttls>").length) data))
        = true →
      isPrefixL (chars "<proceed ") resp = false →
      Vectors.XMPP.StripInboundTLS.mangle_server_data st data resp
        = .error .protocolViolation)
  ∧ (pyIn (chars "required")
        (List.drop start (List.take (start + rel + (chars "</starttls>").length) data))
        = true →
      isPrefixL (chars "<proceed ") resp = true →
      Vectors.XMPP.StripInboundTLS.mangle_server_data st data resp
        = .ok ({ st with
                 outbound_sent := st.outbound_sent
                   ++ [chars "<starttls xmlns=\x27urn:ietf:params:xml:ns:xmpp-tls\x27/>"],
                 outbound_tls := true },
               List.take start data
                 ++ List.drop (start + rel + (chars "</starttls>").length) data)) := by
  unfold Vectors.XMPP.StripInboundTLS.mangle_server_data
  simp only [h1]
  simp only [h2]
  refine ⟨fun hreq => by simp [hreq], fun hreq hp => by simp [hreq, hp],
    fun hreq hp => by simp [hreq, hp]⟩

/-- C8 witness: the `required` element is excised, the stanza goes
upstream, the outbound leg upgrades, the inbound leg stays plain. -/
theorem C8_strip_inbound_tls_witness :
    Vectors.XMPP.StripInboundTLS.mangle_server_data ⟨false, false, [], [], false⟩
        (chars "<a><starttls x><required/></starttls><b>") (chars "<proceed ok/>")
      = .ok (⟨false, true, [],
              [chars "<starttls xmlns=\x27urn:ietf:params:xml:ns:xmpp-tls\x27/>"], false⟩,
             chars "<a><b>") := by
  have h := (C8_strip_inbound_tls ⟨false, false, [], [], false⟩
    (chars "<a><starttls x><required/></starttls><b>") (chars "<proceed ok/>")
    3 23 (by decide) (by decide)).2.2 (by decide) (by decide)
  exact h.trans (by rfl)

/-- A prefix of `s` is a prefix of `s ++ t`. -/
lemma isPrefixL_append : ∀ (n s t : Str), isPrefixL n s = true → isPrefixL n (s ++ t) = true
  | [], _, _, _ => rfl
  | a :: as, [], t, h => by simp [isPrefixL] at h
  | a :: as, b :: bs, t, h => by
    simp only [isPrefixL, Bool.and_eq_true, decide_eq_true_eq] at h
    simp only [List.cons_append, isPrefixL, Bool.and_eq_true, decide_eq_true_eq]
    exact ⟨h.1, isPrefixL_append as bs t h.2⟩

/-- A substring of `s` is a substring of `s ++ t`. -/
lemma pyIn_append (n s t : Str) (h : pyIn n s = true) : pyIn n (s ++ t) = true := by
  unfold pyIn at h ⊢
  induction s with
  | nil =>
    cases n with
    | nil =>
      cases t with
      | nil => exact h
      | cons c cs => simp [findSub, isPrefixL]
    | cons a as => simp [findSub, isPrefixL] at h
  | cons c cs ih =>
    by_cases hq : isPrefixL n (c :: (cs ++ t)) = true
    · rw [List.cons_append]
      simp only [findSub]
      rw [if_pos hq]
      rfl
    · have hp : ¬ isPrefixL n (c :: cs) = true := by
        intro hcon
        apply hq
        have h2 := isPrefixL_append n (c :: cs) t hcon
        simpa using h2
      have hcs : (findSub n cs).isSome = true := by
        simp only [findSub] at h
        rw [if_neg hp] at h
        simpa using h
      have hrec := ih hcs
      rw [List.cons_append]
      simp only [findSub]
      rw [if_neg hq]
      simpa using hrec

/-- C10: when the client chunk contains `STARTTLS` and the upstream reply
contains `220`, InjectCommand appends `INJECTED_INVALID_COMMAND\r\n`, the
nested UntrustedIntercept call already sends the appended chunk upstream
once, and the non-null return value makes `on_recv` send the very same
appended chunk upstream a second time. -/
theorem C10_double_send (st : SessionState) (data resp : Str)
    (h1 : pyIn (chars "STARTTLS") data = true)
    (h2 : pyIn (chars "220") resp = true) :
    onRecvClient Vectors.SMTP.InjectCommand.mangle_client_data st data resp
      = .ok ({ st with
               inbound_tls := true,
               outbound_tls := true,
               inbound_sent := st.inbound_sent ++ [chars "220 Go ahead\r\n"],
               outbound_sent := st.outbound_sent
                 ++ [data ++ chars "INJECTED_INVALID_COMMAND\r\n",
                     data ++ chars "INJECTED_INVALID_COMMAND\r\n"] },
             some (data ++ chars "INJECTED_INVALID_COMMAND\r\n")) := by
  have h1' : pyIn (chars "STARTTLS") (data ++ chars "INJECTED_INVALID_COMMAND\r\n") = true :=
    pyIn_append _ _ _ h1
  unfold onRecvClient Vectors.SMTP.InjectCommand.mangle_client_data
    Vectors.SMTP.UntrustedIntercept.mangle_client_data
  simp [h1, h1', h2, List.append_assoc]

/-- C10 witness: a bare `STARTTLS\r\n` chunk with a `220` upstream reply
ends with the appended command in the upstream log twice. -/
theorem C10_double_send_witness :
    onRecvClient Vectors.SMTP.InjectCommand.mangle_client_data
        ⟨false, false, [], [], false⟩ (chars "STARTTLS\r\n") (chars "220 Go ahead\r\n")
      = .ok (⟨true, true, [chars "220 Go ahead\r\n"],
              [chars "STARTTLS\r\nINJECTED_INVALID_COMMAND\r\n",
               chars "STARTTLS\r\nINJECTED_INVALID_COMMAND\r\n"], false⟩,
             some (chars "STARTTLS\r\nINJECTED_INVALID_COMMAND\r\n")) := by
  have h := C10_double_send ⟨false, false, [], [], false⟩ (chars "STARTTLS\r\n")
    (chars "220 Go ahead\r\n") (by decide) (by decide)
  exact h.trans (by rfl)

/-- Looking a key up in an appended association list searches the left part
first. -/
lemma alookup_append {α β : Type} [DecidableEq α] (l l' : List (α × β)) (a : α) :
    alookup (l ++ l') a
      = match alookup l a with
        | some b => some b
        | none => alookup l' a := by
  induction l with
  | nil => simp [alookup]
  | cons kb rest ih =>
    obtain ⟨k, b⟩ := kb
    by_cases hk : k = a <;> simp [alookup, hk, ih]

/-- Number of result records the dispatcher holds for one session. -/
def recCount {V : Type} [DecidableEq V] (st : RewriteDispatcher V) (sid : Nat) : Nat :=
  (st.results.filter (fun r => r.session = sid)).length

/-- The dispatcher invariant of claim C4: an unbound session has no result
record, and every session has at most one. -/
def DispInv {V : Type} [DecidableEq V] (st : RewriteDispatcher V) : Prop :=
  ∀ sid : Nat,
    (alookup st.session_to_mangle sid = none → recCount st sid = 0)
  ∧ recCount st sid ≤ 1

/-- `get_mangle` either leaves the dispatcher untouched (returning a vector
only when the session was already bound to it) or appends exactly one fresh
pending record and binding for a previously unbound session. -/
lemma get_mangle_shape {V : Type} [DecidableEq V]
    (st : RewriteDispatcher V) (s : PySession) :
    ((st.get_mangle s).2 = st
      ∧ ∀ m, (st.get_mangle s).1 = .ok (some m) →
          alookup st.session_to_mangle s.sid = some m)
  ∨ (∃ m, alookup st.session_to_mangle s.sid = none
        ∧ st.get_mangle s
            = (.ok (some m),
               { st with
                 results := st.results ++ [⟨s.client, s.sid, m, none⟩],
                 session_to_mangle := st.session_to_mangle ++ [(s.sid, m)] })) := by
  unfold RewriteDispatcher.get_mangle
  cases hb : alookup st.session_to_mangle s.sid with
  | some m0 =>
    left
    refine ⟨rfl, fun m hm => ?_⟩
    simp at hm
    rw [hm]
  | none =>
    by_cases he : (st.get_mangles s.proto).isEmpty
    · left
      simp [he]
    · simp only [he, if_false]
      cases hlast : (st.results.filter (fun r => r.client = s.client)).getLast? with
      | none =>
        cases hget : (st.get_mangles s.proto)[0]? with
        | none => left; simp [hlast, hget]
        | some m => right; exact ⟨m, by simp [hb], by simp [hlast, hget]⟩
      | some prev =>
        cases hidx : pyIndexOf (st.get_mangles s.proto) prev.mangle with
        | none => left; simp [hlast, hidx]
        | some i =>
          cases hget : (st.get_mangles s.proto)[(i + 1) % (st.get_mangles s.proto).length]? with
          | none => left; simp [hlast, hidx, hget]
          | some m => right; exact ⟨m, by simp [hb], by simp [hlast, hidx, hget]⟩

/-- C4: under the dispatcher invariant, `get_mangle` preserves the
invariant; a session already bound to a vector gets that vector back with
the state untouched (no new record); and the first assignment to an unbound
session appends exactly one pending record, binds the session, and leaves
its record count at one. -/
theorem C4_at_most_one_record {V : Type} [DecidableEq V]
    (st : RewriteDispatcher V) (s : PySession) (hInv : DispInv st) :
    DispInv (st.get_mangle s).2
  ∧ (∀ m, alookup st.session_to_mangle s.sid = some m →
      st.get_mangle s = (.ok (some m), st))
  ∧ (∀ m, alookup st.session_to_mangle s.sid = none →
      (st.get_mangle s).1 = .ok (some m) →
        (st.get_mangle s).2.results = st.results ++ [⟨s.client, s.sid, m, none⟩]
      ∧ alookup (st.get_mangle s).2.session_to_mangle s.sid = some m
      ∧ recCount (st.get_mangle s).2 s.sid = 1) := by
  refine ⟨?_, ?_, ?_⟩
  · rcases get_mangle_shape st s with ⟨h2, _⟩ | ⟨m, hb, heq⟩
    · rw [h2]; exact hInv
    · rw [heq]
      intro sid
      have hcount : recCount
          ({ st with
             results := st.results ++ [⟨s.client, s.sid, m, none⟩],
             session_to_mangle := st.session_to_mangle ++ [(s.sid, m)] } :
            RewriteDispatcher V) sid
          = recCount st sid + (if s.sid = sid then 1 else 0) := by
        unfold recCount
        simp only [List.filter_append, List.length_append]
        by_cases hs : s.sid = sid <;> simp [hs]
      constructor
      · intro hnone
        rw [alookup_append] at hnone
        revert hnone
        cases hl : alookup st.session_to_mangle sid with
        | some b => intro hnone; cases hnone
        | none =>
          simp only [alookup]
          intro hnone
          by_cases hs : s.sid = sid
          · rw [if_pos hs] at hnone; cases hnone
          · rw [hcount, if_neg hs]
            simpa using (hInv sid).1 hl
      · rw [hcount]
        by_cases hs : s.sid = sid
        · rw [if_pos hs]
          have h0 : recCount st sid = 0 := (hInv sid).1 (hs ▸ hb)
          omega
        · rw [if_neg hs]
          have := (hInv sid).2
          omega
  · intro m hm
    unfold RewriteDispatcher.get_mangle
    rw [hm]
  · intro m hb h1
    rcases get_mangle_shape st s with ⟨h2, himp⟩ | ⟨m', hb', heq⟩
    · rw [himp m h1] at hb; cases hb
    · have hm : m' = m := by
        rw [heq] at h1
        simpa using h1
      subst hm
      rw [heq]
      refine ⟨rfl, ?_, ?_⟩
      · rw [alookup_append, hb']
        simp [alookup]
      · unfold recCount
        simp only [List.filter_append, List.length_append]
        have h0 : recCount st s.sid = 0 := (hInv s.sid).1 hb'
        unfold recCount at h0
        simp [h0]

/-- C4 witness: with session `0` already bound to vector `7` and holding its
single record, a further `get_mangle` returns vector `7` and leaves the
dispatcher unchanged. -/
theorem C4_at_most_one_record_witness :
    RewriteDispatcher.get_mangle
        (⟨[(25, [7])], [⟨"c", 0, 7, none⟩], [(0, 7)]⟩ : RewriteDispatcher Nat)
        ⟨0, "c", some 25⟩
      = (.ok (some 7), ⟨[(25, [7])], [⟨"c", 0, 7, none⟩], [(0, 7)]⟩) := by
  have hInv : DispInv (⟨[(25, [7])], [⟨"c", 0, 7, none⟩], [(0, 7)]⟩ : RewriteDispatcher Nat) := by
    intro sid
    by_cases h : (0 : Nat) = sid <;> simp [recCount, alookup, h]
  exact (C4_at_most_one_record (⟨[(25, [7])], [⟨"c", 0, 7, none⟩], [(0, 7)]⟩ :
    RewriteDispatcher Nat) ⟨0, "c", some 25⟩ hInv).2.1 7 (by decide)

/-- C6 witness: port 25 fixes SMTP at construction and survives later
chunks; keyword detection from an `EHLO` chunk also sticks. -/
theorem C6_detector_monotonic_witness :
    (ProtocolDetect.init (some 25)).protocol_id = some 25
  ∧ ((ProtocolDetect.init (some 25)).detectAll
        [chars "auth tls", chars "xmpp"]).protocol_id = some 25
  ∧ (((ProtocolDetect.init none).detect (chars "EHLO hi")).detectAll
        [chars "auth tls"]).protocol_id = some 25 := by
  refine ⟨(C6_detector_monotonic.1 25).trans (by decide), ?_, ?_⟩
  · exact C6_detector_monotonic.2 (ProtocolDetect.init (some 25)) 25
      [chars "auth tls", chars "xmpp"] (by decide)
  · exact C6_detector_monotonic.2 ((ProtocolDetect.init none).detect (chars "EHLO hi")) 25
      [chars "auth tls"] (by decide)
